import Mathlib

/-!
Verification of the goswarm fleet orchestrator against its specification.

The development shallowly embeds the control flow of the Go source file
main.go.  Remote backend calls (gomote.Create, gomote.Push, gomote.Run,
gomote.Destroy, gomote.List, gomote.Get) and filesystem calls
(os.CreateTemp, os.WriteFile, os.Create) are modelled by their results,
passed in as explicit parameters: an Option String is the Go error value
returned by one call (none meaning a nil error), and a Bool records
whether a persistence call succeeded.  Machine integers are modelled as
Nat with the Go uint-to-int conversion made explicit where it matters.
-/

namespace Goswarm

/-- Interpretation of a 64-bit unsigned value as a Go int (64-bit two
complement), as performed by the conversion int(retries) inside retry and
by int(instances) inside run. -/
def int64OfUint64 (u : Nat) : Int :=
  if u % 18446744073709551616 < 9223372036854775808 then
    ((u % 18446744073709551616 : Nat) : Int)
  else
    ((u % 18446744073709551616 : Nat) : Int) - 18446744073709551616

/-- Embedding of the goto loop inside retry in main.go.  The argument i
counts the failed invocations so far (the Go variable i at the top of the
loop body), and f j is the error returned by invocation number j of the
retried closure, with none meaning success.  The result is the returned
error together with the total number of invocations performed.  The Go
guard is i < int(retries) after i++, with retries a uint. -/
def retryAux (f : Nat → Option String) (retries i : Nat) : Option String × Nat :=
  match f i with
  | none => (none, i + 1)
  | some e =>
      if h : ((i + 1 : Nat) : Int) < int64OfUint64 retries then retryAux f retries (i + 1)
      else (some e, i + 1)
termination_by retries % 18446744073709551616 - i
decreasing_by
  unfold int64OfUint64 at h
  split at h <;> omega

/-- Embedding of retry(f, retries) from main.go: run the loop starting
with zero failures recorded. -/
def retry (f : Nat → Option String) (retries : Nat) : Option String × Nat :=
  retryAux f retries 0

/-- Substring test on lists of characters, the model of bytes.Contains
from the Go standard library: true exactly when the needle occurs
contiguously inside the haystack. -/
def listIsInfixOf (needle : List Char) : List Char → Bool
  | [] => needle.isEmpty
  | c :: rest => (needle.isPrefixOf (c :: rest) || listIsInfixOf needle rest)

/-- Model of bytes.Contains(haystack, needle) used at line 224 of main.go
to detect a lost worker. -/
def bytesContains (haystack needle : String) : Bool :=
  listIsInfixOf needle.data haystack.data

/-- The error values a session or run() can produce, one constructor per
distinct error construction site in main.go.  The constructor stop is the
sentinel errStop declared at line 129. -/
inductive GoError where
  | stop
  | infra (msg : String)
  | lostBuilder (inst : String)
  | failedWriteOutput
  | failedCreateArchive (inst : String)
  | failedDownload (inst : String)
  | validation (msg : String)
  | cleanupFailed (msg : String)
  | expectedCommand
deriving DecidableEq, Repr

/-- The kind of a non-nil error returned by gomote.Run: exitErr is a Go
exec.ExitError, meaning the command itself exited non-zero; other is any
other (infrastructure) error. -/
inductive RunErrKind where
  | exitErr
  | other (msg : String)
deriving DecidableEq, Repr

/-- The environment of one iteration of the run loop of a session
(lines 209 to 270 of main.go): what gomote.Run returned, whether the
shared context was observed cancelled by the select just after it, and
the success of each of the five external persistence or fetch calls the
iteration may make. -/
structure StepEnv where
  ctxDone : Bool
  runErr : Option RunErrKind
  output : String
  createTempOk : Bool
  tempWriteOk : Bool
  writeFileOk : Bool
  createArchiveOk : Bool
  getOk : Bool
deriving DecidableEq, Repr

/-- Control outcome of one iteration of the run loop: keep looping,
return from the session closure with the given error value (none meaning
a nil return), or crash the process.  The constructor panicNilDeref
records the nil pointer dereference that Go performs when os.CreateTemp
fails: f is then nil, f.Write returns os.ErrInvalid without crashing
(os.File methods check the receiver for nil), but the logging call on the
error path evaluates f.Name(), which reads the field f.name through the
nil pointer and panics. -/
inductive StepOutcome where
  | continueLoop
  | ret (e : Option GoError)
  | panicNilDeref
deriving DecidableEq, Repr

/-- Result of one iteration: its control outcome plus which artifacts
were completely persisted during it (the temp file for an unmatched
failure, the worker-id.out file, and the fully downloaded
worker-id.tar.gz archive). -/
structure StepRes where
  outcome : StepOutcome
  wroteTemp : Bool
  wroteOut : Bool
  wroteTar : Bool
deriving DecidableEq, Repr

/-- Embedding of lines 248 to 268 of main.go, the matched failure path:
write worker-id.out, create and download worker-id.tar.gz, then return
errStop, or nil when keepGoing is set.  Each failed step returns its own
error. -/
def matchedBranch (keepGoing : Bool) (inst : String) (e : StepEnv) : StepRes :=
  if !e.writeFileOk then ⟨.ret (some .failedWriteOutput), false, false, false⟩
  else if !e.createArchiveOk then ⟨.ret (some (.failedCreateArchive inst)), false, true, false⟩
  else if !e.getOk then ⟨.ret (some (.failedDownload inst)), false, true, false⟩
  else if keepGoing then ⟨.ret none, false, true, true⟩
  else ⟨.ret (some .stop), false, true, true⟩

/-- Embedding of lines 230 to 246 of main.go, the unmatched failure path:
best effort persistence of the output to a temp file, then continue the
loop.  When os.CreateTemp fails the Go code logs, then still calls
f.Write on the nil handle (which returns os.ErrInvalid), and the error
branch then evaluates f.Name() on the nil handle, a panic. -/
def unmatchedBranch (e : StepEnv) : StepRes :=
  if e.createTempOk then ⟨.continueLoop, e.tempWriteOk, false, false⟩
  else ⟨.panicNilDeref, false, false, false⟩

/-- Embedding of one iteration of the run loop, lines 209 to 270 of
main.go: consult the cancellation select, then the error kind of
gomote.Run, then the lost worker substring test, then the match pattern
(errRegexp is nil when no -match flag was given; the Go condition is
errRegexp != nil && !errRegexp.Match(results)). -/
def runStep (errRegexp : Option (String → Bool)) (keepGoing : Bool) (inst : String)
    (e : StepEnv) : StepRes :=
  if e.ctxDone then ⟨.ret none, false, false, false⟩
  else
    match e.runErr with
    | none => ⟨.continueLoop, false, false, false⟩
    | some (.other msg) => ⟨.ret (some (.infra msg)), false, false, false⟩
    | some .exitErr =>
      if bytesContains e.output inst then ⟨.ret (some (.lostBuilder inst)), false, false, false⟩
      else
        match errRegexp with
        | some r => if !r e.output then unmatchedBranch e else matchedBranch keepGoing inst e
        | none => matchedBranch keepGoing inst e

/-- Embedding of lines 164 to 171 of main.go: the match pattern is
compiled only when the -match flag is nonempty, so an empty errMatch
leaves errRegexp nil.  The parameter compile stands for regexp.Compile,
returning either an error or a matcher. -/
def errRegexpOf (errMatch : String) (compile : String → Except String (String → Bool)) :
    Except String (Option (String → Bool)) :=
  if errMatch = "" then .ok none
  else
    match compile errMatch with
    | .error e => .error e
    | .ok r => .ok (some r)

/-- One entry of the list returned by gomote.List: an instance name and
its instance type. -/
structure Instance where
  name : String
  type : String
deriving DecidableEq, Repr

/-- Embedding of the loop of cleanUpInstances, lines 117 to 125 of
main.go: skip instances of a different type, destroy the others, and
stop at the first destroy error.  The parameter destroy gives the error
result of gomote.Destroy per instance name.  The second component lists
the instances for which a destroy call was issued. -/
def cleanUpLoop (typ : String) (destroy : String → Option String) :
    List Instance → Option String × List Instance
  | [] => (none, [])
  | inst :: rest =>
    if inst.type ≠ typ then cleanUpLoop typ destroy rest
    else
      match destroy inst.name with
      | some e => (some e, [inst])
      | none =>
        ((cleanUpLoop typ destroy rest).1, inst :: (cleanUpLoop typ destroy rest).2)

/-- Embedding of cleanUpInstances(ctx, typ), lines 112 to 127 of main.go,
with the result of gomote.List passed in explicitly. -/
def cleanUpInstances (typ : String) (listRes : Except String (List Instance))
    (destroy : String → Option String) : Option String × List Instance :=
  match listRes with
  | .error e => (some e, [])
  | .ok insts => cleanUpLoop typ destroy insts

/-- Embedding of the exit decision of main(), lines 91 to 97 of main.go:
the process exits 1 exactly when run() returned a non-nil error other
than errStop, and exits 0 otherwise. -/
def mainExitCode (r : Option GoError) : Nat :=
  if r ≠ none ∧ r ≠ some .stop then 1 else 0

/-- The three values of the -clean flag, from lines 64 to 68 of main.go. -/
inductive CleanMode where
  | cleanOff
  | cleanStart
  | cleanExit
deriving DecidableEq, Repr

/-- Whether the argument handling prefix of run() returns early (with the
given error value, none meaning a nil return) or proceeds to launch the
worker sessions. -/
inductive ArgCheck where
  | ret (e : Option GoError)
  | proceed
deriving DecidableEq, Repr

/-- Embedding of lines 131 to 162 of main.go, the prefix of run() before
any session is launched: reject zero arguments, validate the instance
type, clean up when -clean start was given, and with exactly one
argument either finish successfully (clean mode start) or reject with
the expected a command error.  The results of validateInstanceType and
cleanUpInstances are passed in explicitly. -/
def runArgCheck (nArgs : Nat) (clean : CleanMode) (validateErr : Option String)
    (cleanupErr : Option String) : ArgCheck :=
  if nArgs = 0 then .ret (some (.validation "expected an instance type, followed by a command"))
  else
    match validateErr with
    | some e => .ret (some (.validation e))
    | none =>
      match (if clean = .cleanStart then cleanupErr else none) with
      | some e => .ret (some (.cleanupFailed e))
      | none =>
        if nArgs = 1 then
          if clean ≠ .cleanStart then .ret (some .expectedCommand) else .ret none
        else .proceed

/-- Per invocation results of gomote.Create inside the retried closure of
lines 179 to 183 of main.go: error sequence as seen by retry.  The Go
closure assigns inst on every attempt, so on success inst holds the name
returned by the last invocation performed. -/
def createErrSeq (createf : Nat → Except String String) (n : Nat) : Option String :=
  match createf n with
  | .ok _ => none
  | .error e => some e

/-- The instance name produced by invocation n of gomote.Create; a failed
invocation returns the empty name. -/
def instFromCreate (createf : Nat → Except String String) (n : Nat) : String :=
  match createf n with
  | .ok i => i
  | .error _ => ""

/-- The name held by the Go variable inst after the create retry of lines
179 to 183: the value assigned by the last invocation performed. -/
def createdInst (createf : Nat → Except String String) (deflakes : Nat) : String :=
  instFromCreate createf ((retry (createErrSeq createf) deflakes).2 - 1)

/-- Whether the prelude of a session returns early (ret, with the error
value the session closure returns) or proceeds to the run loop on the
created instance. -/
inductive PreludeRes where
  | ret (e : Option GoError)
  | proceed (inst : String)
deriving DecidableEq, Repr

/-- Embedding of lines 177 to 206 of main.go, a session before its run
loop: create the instance under retry, then push under retry; on either
retry returning an error the session logs and returns nil.  The argument
pushf gives, per instance name, the error sequence of gomote.Push as seen
by retry. -/
def sessionPrelude (createf : Nat → Except String String)
    (pushf : String → Nat → Option String) (deflakes : Nat) : PreludeRes :=
  match (retry (createErrSeq createf) deflakes).1 with
  | some _ => .ret none
  | none =>
    match (retry (pushf (createdInst createf deflakes)) deflakes).1 with
    | some _ => .ret none
    | none => .proceed (createdInst createf deflakes)

/-! Helper lemmas about the retry loop. -/

theorem int64OfUint64_small (b : Nat) (hb : b < 9223372036854775808) :
    int64OfUint64 b = (b : Int) := by
  unfold int64OfUint64
  rw [Nat.mod_eq_of_lt (by omega)]
  simp [hb]

theorem int64OfUint64_le (u : Nat) :
    int64OfUint64 u ≤ ((u % 18446744073709551616 : Nat) : Int) := by
  unfold int64OfUint64
  split <;> omega

theorem retryAux_none (f : Nat → Option String) (retries i : Nat) (hf : f i = none) :
    retryAux f retries i = (none, i + 1) := by
  rw [retryAux]
  simp only [hf]

theorem retryAux_some_raw (f : Nat → Option String) (retries i : Nat) (e : String)
    (hf : f i = some e) :
    retryAux f retries i =
      if ((i + 1 : Nat) : Int) < int64OfUint64 retries then retryAux f retries (i + 1)
      else (some e, i + 1) := by
  rw [retryAux]
  simp only [hf, dite_eq_ite]

theorem retryAux_some_step (f : Nat → Option String) (retries i : Nat) (e : String)
    (hf : f i = some e) (hlt : i + 1 < retries) (hb : retries < 9223372036854775808) :
    retryAux f retries i = retryAux f retries (i + 1) := by
  rw [retryAux_some_raw f retries i e hf, if_pos]
  rw [int64OfUint64_small retries hb]
  exact_mod_cast hlt

theorem retryAux_some_stop (f : Nat → Option String) (retries i : Nat) (e : String)
    (hf : f i = some e) (hge : ¬ i + 1 < retries) (hb : retries < 9223372036854775808) :
    retryAux f retries i = (some e, i + 1) := by
  rw [retryAux_some_raw f retries i e hf, if_neg]
  rw [int64OfUint64_small retries hb]
  intro hcon
  exact hge (by exact_mod_cast hcon)

theorem retryAux_succeeds (f : Nat → Option String) (b k : Nat)
    (hb : b < 9223372036854775808) (hk : 1 ≤ k) (hkb : k ≤ b)
    (hfail : ∀ j, j < k - 1 → (f j).isSome = true) (hsucc : f (k - 1) = none) :
    ∀ d i, i + d = k - 1 → retryAux f b i = (none, k) := by
  intro d
  induction d with
  | zero =>
    intro i hi
    have hik : i = k - 1 := by omega
    subst hik
    rw [retryAux_none f b _ hsucc]
    have hkk : k - 1 + 1 = k := by omega
    rw [hkk]
  | succ d ih =>
    intro i hi
    have hik : i < k - 1 := by omega
    obtain ⟨e, he⟩ := Option.isSome_iff_exists.mp (hfail i hik)
    rw [retryAux_some_step f b i e he (by omega) hb]
    exact ih (i + 1) (by omega)

theorem retryAux_all_fail (f : Nat → Option String) (b : Nat) (hb1 : 1 ≤ b)
    (hb : b < 9223372036854775808) (hfail : ∀ j, (f j).isSome = true) :
    ∀ d i, i + d = b - 1 → retryAux f b i = (f (b - 1), b) := by
  intro d
  induction d with
  | zero =>
    intro i hi
    have hib : i = b - 1 := by omega
    subst hib
    obtain ⟨e, he⟩ := Option.isSome_iff_exists.mp (hfail (b - 1))
    rw [retryAux_some_stop f b _ e he (by omega) hb, he]
    have hbb : b - 1 + 1 = b := by omega
    rw [hbb]
  | succ d ih =>
    intro i hi
    obtain ⟨e, he⟩ := Option.isSome_iff_exists.mp (hfail i)
    rw [retryAux_some_step f b i e he (by omega) hb]
    exact ih (i + 1) (by omega)

theorem retryAux_count_ge (f : Nat → Option String) (b : Nat) :
    ∀ d i, b % 18446744073709551616 - i ≤ d → i + 1 ≤ (retryAux f b i).2 := by
  intro d
  induction d with
  | zero =>
    intro i hle
    cases hf : f i with
    | none => rw [retryAux_none f b i hf]
    | some e =>
      rw [retryAux_some_raw f b i e hf, if_neg]
      have hle2 := int64OfUint64_le b
      intro hcon
      omega
  | succ d ih =>
    intro i hle
    cases hf : f i with
    | none => rw [retryAux_none f b i hf]
    | some e =>
      rw [retryAux_some_raw f b i e hf]
      by_cases hc : ((i + 1 : Nat) : Int) < int64OfUint64 b
      · rw [if_pos hc]
        have hrec := ih (i + 1) (by omega)
        omega
      · rw [if_neg hc]

/-- Claim C1 (corrected): over budgets b that stay positive under the Go
conversion int(retries), i.e. 1 ≤ b < 2 ^ 63, retry behaves as specified:
an operation failing its first k - 1 invocations and succeeding on the
k-th with k ≤ b makes retry succeed after exactly k invocations; an
always failing operation is invoked exactly b times and the error of the
last invocation is returned; and for every budget, including b = 0, the
operation is invoked at least once. -/
theorem retry_spec :
    (∀ (f : Nat → Option String) (b k : Nat), 1 ≤ b → b < 9223372036854775808 →
        1 ≤ k → k ≤ b → (∀ j, j < k - 1 → (f j).isSome = true) → f (k - 1) = none →
        retry f b = (none, k)) ∧
    (∀ (f : Nat → Option String) (b : Nat), 1 ≤ b → b < 9223372036854775808 →
        (∀ j, (f j).isSome = true) → retry f b = (f (b - 1), b)) ∧
    (∀ (f : Nat → Option String) (b : Nat), 1 ≤ (retry f b).2) := by
  refine ⟨?_, ?_, ?_⟩
  · intro f b k hb1 hb hk hkb hfail hsucc
    exact retryAux_succeeds f b k hb hk hkb hfail hsucc (k - 1) 0 (by omega)
  · intro f b hb1 hb hfail
    exact retryAux_all_fail f b hb1 hb hfail (b - 1) 0 (by omega)
  · intro f b
    have h := retryAux_count_ge f b (b % 18446744073709551616) 0 (by omega)
    simpa [retry] using h

/-- Witness for C1: concrete runs of retry obtained by applying the
specification theorem. -/
theorem retry_spec_witness :
    retry (fun j => if j < 2 then some "fail" else none) 5 = (none, 3) ∧
    retry (fun _ => some "fail") 4 = (some "fail", 4) ∧
    1 ≤ (retry (fun _ => some "fail") 0).2 := by
  refine ⟨?_, ?_, retry_spec.2.2 (fun _ => some "fail") 0⟩
  · refine retry_spec.1 (fun j => if j < 2 then some "fail" else none) 5 3
      (by norm_num) (by norm_num) (by norm_num) (by norm_num) ?_ (by norm_num)
    intro j hj
    simp only [Nat.lt_iff_add_one_le] at hj
    simp [show j < 2 by omega]
  · have h := retry_spec.2.1 (fun _ => some "fail") 4 (by norm_num) (by norm_num)
      (fun j => rfl)
    simpa using h

/-- Counterexample for C1 as frozen: at the budget b = 2 ^ 63 the Go
conversion int(retries) is negative, the loop guard is immediately false,
and an always failing operation is invoked once, not b times. -/
theorem retry_budget_overflow_counterexample :
    retry (fun _ => some "boom") 9223372036854775808 = (some "boom", 1) ∧
    (9223372036854775808 : Nat) ≠ 1 := by
  constructor
  · rw [retry, retryAux_some_raw _ _ _ "boom" rfl, if_neg]
    norm_num [int64OfUint64]
  · norm_num

/-- Counterexample for C2 as frozen: a non-zero command exit with no
pattern configured and no cancellation observed is NOT always classified
as a matched failure: when the output contains the worker id, the lost
worker check fires first, the session returns an error and no artifact is
written. -/
theorem noPattern_lostWorker_counterexample :
    (runStep none false "m1"
        ⟨false, some .exitErr, "m1 exited badly", true, true, true, true, true⟩).outcome =
      .ret (some (.lostBuilder "m1")) ∧
    (runStep none false "m1"
        ⟨false, some .exitErr, "m1 exited badly", true, true, true, true, true⟩).wroteOut =
      false := by
  exact ⟨rfl, rfl⟩

/-- Claim C2 (corrected): an empty -match flag leaves errRegexp nil, and
with a nil errRegexp every non-zero command exit whose output does not
contain the worker id is immediately treated as a matched failure: the
out file and the archive are written (persistence succeeding) and the
session stops, returning errStop, or nil under keep-going. -/
theorem noPattern_matched_failure (kg : Bool) (inst : String) (e : StepEnv)
    (hdone : e.ctxDone = false) (herr : e.runErr = some .exitErr)
    (hlost : bytesContains e.output inst = false)
    (hw : e.writeFileOk = true) (hc : e.createArchiveOk = true) (hg : e.getOk = true) :
    (∀ compile : String → Except String (String → Bool), errRegexpOf "" compile = .ok none) ∧
    (runStep none kg inst e).wroteOut = true ∧
    (runStep none kg inst e).wroteTar = true ∧
    (runStep none kg inst e).outcome = .ret (if kg then none else some .stop) := by
  refine ⟨fun compile => rfl, ?_⟩
  simp only [runStep, matchedBranch, hdone, herr, hlost, hw, hc, hg]
  cases kg <;> simp

/-- Witness for C2: a concrete matched failure with no pattern set. -/
theorem noPattern_matched_failure_witness :
    (runStep none false "m1"
        ⟨false, some .exitErr, "test crashed", true, true, true, true, true⟩).wroteOut = true ∧
    (runStep none false "m1"
        ⟨false, some .exitErr, "test crashed", true, true, true, true, true⟩).wroteTar = true ∧
    (runStep none false "m1"
        ⟨false, some .exitErr, "test crashed", true, true, true, true, true⟩).outcome =
      .ret (some .stop) := by
  exact (noPattern_matched_failure false "m1"
    ⟨false, some .exitErr, "test crashed", true, true, true, true, true⟩
    rfl rfl rfl rfl rfl rfl).2

/-- Claim C3 (confirmed): on a command exit failure with no cancellation
observed, an output containing the worker id is classified as a lost
worker and the session returns the lost builder error, whatever the match
pattern is and whether or not the output would match it; the check runs
before the pattern check. -/
theorem lostWorker_precedence (errRegexp : Option (String → Bool)) (kg : Bool)
    (inst : String) (e : StepEnv)
    (hdone : e.ctxDone = false) (herr : e.runErr = some .exitErr)
    (hlost : bytesContains e.output inst = true) :
    runStep errRegexp kg inst e = ⟨.ret (some (.lostBuilder inst)), false, false, false⟩ := by
  simp [runStep, hdone, herr, hlost]

/-- Witness for C3: the output both matches the configured pattern and
contains the worker id; the lost worker verdict wins. -/
theorem lostWorker_precedence_witness :
    runStep (some (fun s => bytesContains s "FAIL")) true "m1"
        ⟨false, some .exitErr, "FAIL on m1", true, true, true, true, true⟩ =
      ⟨.ret (some (.lostBuilder "m1")), false, false, false⟩ := by
  exact lostWorker_precedence (some (fun s => bytesContains s "FAIL")) true "m1" _ rfl rfl rfl

/-- Counterexample for C4 as frozen: with a pattern configured and an
output that does not match it, the session does not always continue; when
the output contains the worker id the session returns the lost builder
error instead. -/
theorem pattern_unmatched_lostWorker_counterexample :
    (runStep (some (fun _ => false)) false "m1"
        ⟨false, some .exitErr, "m1 vanished", true, true, true, true, true⟩).outcome =
      .ret (some (.lostBuilder "m1")) := by
  exact rfl

/-- Claim C4 (corrected): on a command exit failure with a pattern
configured, no cancellation observed and an output not containing the
worker id: a non-matching output makes the session continue the loop with
no error (the temp file being creatable, see C7), so the fleet is not
terminated; a matching output makes the session return errStop
(terminating the fleet), or nil when keep-going is set so the other
sessions keep running, when the three artifact steps succeed — and when
an artifact step fails the session returns that step
error (which terminates the fleet even under keep-going). -/
theorem pattern_routing (r : String → Bool) (kg : Bool) (inst : String) (e : StepEnv)
    (hdone : e.ctxDone = false) (herr : e.runErr = some .exitErr)
    (hlost : bytesContains e.output inst = false) :
    (r e.output = false → e.createTempOk = true →
      runStep (some r) kg inst e = ⟨.continueLoop, e.tempWriteOk, false, false⟩) ∧
    (r e.output = true →
      (runStep (some r) kg inst e).outcome =
        if e.writeFileOk = false then .ret (some .failedWriteOutput)
        else if e.createArchiveOk = false then .ret (some (.failedCreateArchive inst))
        else if e.getOk = false then .ret (some (.failedDownload inst))
        else .ret (if kg then none else some GoError.stop)) := by
  constructor
  · intro hr htemp
    simp [runStep, unmatchedBranch, hdone, herr, hlost, hr, htemp]
  · intro hr
    simp only [runStep, hdone, herr, hlost, hr]
    cases hw : e.writeFileOk <;> cases hc : e.createArchiveOk <;> cases hg : e.getOk <;>
      cases kg <;> simp [matchedBranch, hw, hc, hg]

/-- Witness for C4: with pattern FATAL, a noise output loops on with no
error, a matching output with all artifact steps succeeding returns
errStop, and a matching output with a failed out file write returns the
failed write error even under keep-going. -/
theorem pattern_routing_witness :
    runStep (some (fun s => bytesContains s "FATAL")) false "m1"
        ⟨false, some .exitErr, "flaky timeout", true, true, true, true, true⟩ =
      ⟨.continueLoop, true, false, false⟩ ∧
    (runStep (some (fun s => bytesContains s "FATAL")) false "m1"
        ⟨false, some .exitErr, "FATAL oops", true, true, true, true, true⟩).outcome =
      .ret (some .stop) ∧
    (runStep (some (fun s => bytesContains s "FATAL")) true "m1"
        ⟨false, some .exitErr, "FATAL oops", true, true, false, true, true⟩).outcome =
      .ret (some .failedWriteOutput) := by
  refine ⟨?_, ?_, ?_⟩
  · exact (pattern_routing (fun s => bytesContains s "FATAL") false "m1"
      ⟨false, some .exitErr, "flaky timeout", true, true, true, true, true⟩
      rfl rfl rfl).1 rfl rfl
  · exact (pattern_routing (fun s => bytesContains s "FATAL") false "m1"
      ⟨false, some .exitErr, "FATAL oops", true, true, true, true, true⟩
      rfl rfl rfl).2 rfl
  · exact (pattern_routing (fun s => bytesContains s "FATAL") true "m1"
      ⟨false, some .exitErr, "FATAL oops", true, true, false, true, true⟩
      rfl rfl rfl).2 rfl

/-- Claim C5 (confirmed): when the create retry of a session is exhausted
without success, or when the push retry is, the session logs and returns
nil, so it ends without a failure and its loss never becomes a fleet
level error (a nil return from a session neither cancels the errgroup
context nor contributes to the error of eg.Wait). -/
theorem retry_exhaustion_nonfatal (createf : Nat → Except String String)
    (pushf : String → Nat → Option String) (d : Nat) :
    ((retry (createErrSeq createf) d).1.isSome = true →
      sessionPrelude createf pushf d = .ret none) ∧
    ((∀ s, (retry (pushf s) d).1.isSome = true) →
      sessionPrelude createf pushf d = .ret none) := by
  constructor
  · intro h
    obtain ⟨e, he⟩ := Option.isSome_iff_exists.mp h
    simp [sessionPrelude, he]
  · intro h
    cases hcr : (retry (createErrSeq createf) d).1 with
    | some e => simp [sessionPrelude, hcr]
    | none =>
      obtain ⟨e, he⟩ :=
        Option.isSome_iff_exists.mp (h (createdInst createf d))
      simp [sessionPrelude, hcr, he]

/-- Witness for C5: gomote.Create failing on every attempt with budget 3
makes the session return nil, and so does gomote.Push always failing
after a successful create. -/
theorem retry_exhaustion_nonfatal_witness :
    sessionPrelude (fun _ => .error "create refused") (fun _ _ => none) 3 = .ret none ∧
    sessionPrelude (fun _ => .ok "m1") (fun _ _ => some "push refused") 3 = .ret none := by
  constructor
  · apply (retry_exhaustion_nonfatal (fun _ => .error "create refused") (fun _ _ => none) 3).1
    simp [retry, retryAux, createErrSeq, int64OfUint64]
  · apply (retry_exhaustion_nonfatal (fun _ => .ok "m1") (fun _ _ => some "push refused") 3).2
    intro s
    simp [retry, retryAux, int64OfUint64]

/-- Counterexample for C6 as frozen: a failure of os.WriteFile while
persisting the out file of a matched failure is not merely logged; the
session aborts, returning the failed to write output error. -/
theorem matched_artifact_failure_counterexample :
    (runStep none false "m1"
        ⟨false, some .exitErr, "boom", true, true, false, true, true⟩).outcome =
      .ret (some .failedWriteOutput) := by
  exact rfl

/-- Claim C6 (corrected): only the unmatched failure temp file is best
effort: a failed write to an already created temp file is logged and the
loop continues; but a failure to write the out file, to create the
archive file, or to download the archive of a matched failure makes the
session return an error. -/
theorem persistence_policy (r : String → Bool) (kg : Bool) (inst : String) (e : StepEnv)
    (hdone : e.ctxDone = false) (herr : e.runErr = some .exitErr)
    (hlost : bytesContains e.output inst = false) :
    (r e.output = false → e.createTempOk = true → e.tempWriteOk = false →
      (runStep (some r) kg inst e).outcome = .continueLoop) ∧
    (e.writeFileOk = false →
      (runStep none kg inst e).outcome = .ret (some .failedWriteOutput)) ∧
    (e.writeFileOk = true → e.createArchiveOk = false →
      (runStep none kg inst e).outcome = .ret (some (.failedCreateArchive inst))) ∧
    (e.writeFileOk = true → e.createArchiveOk = true → e.getOk = false →
      (runStep none kg inst e).outcome = .ret (some (.failedDownload inst))) := by
  refine ⟨?_, ?_, ?_, ?_⟩
  · intro hr htc htw
    simp [runStep, unmatchedBranch, hdone, herr, hlost, hr, htc]
  · intro hw
    simp [runStep, matchedBranch, hdone, herr, hlost, hw]
  · intro hw hc
    simp [runStep, matchedBranch, hdone, herr, hlost, hw, hc]
  · intro hw hc hg
    simp [runStep, matchedBranch, hdone, herr, hlost, hw, hc, hg]

/-- Witness for C6: the four persistence failure shapes at concrete
inputs. -/
theorem persistence_policy_witness :
    (runStep (some (fun s => bytesContains s "FATAL")) false "m1"
        ⟨false, some .exitErr, "noise", true, false, true, true, true⟩).outcome =
      .continueLoop ∧
    (runStep none false "m1"
        ⟨false, some .exitErr, "noise", true, true, false, true, true⟩).outcome =
      .ret (some .failedWriteOutput) ∧
    (runStep none false "m1"
        ⟨false, some .exitErr, "noise", true, true, true, false, true⟩).outcome =
      .ret (some (.failedCreateArchive "m1")) ∧
    (runStep none false "m1"
        ⟨false, some .exitErr, "noise", true, true, true, true, false⟩).outcome =
      .ret (some (.failedDownload "m1")) := by
  refine ⟨?_, ?_, ?_, ?_⟩
  · exact (persistence_policy (fun s => bytesContains s "FATAL") false "m1"
      ⟨false, some .exitErr, "noise", true, false, true, true, true⟩ rfl rfl rfl).1 rfl rfl rfl
  · exact (persistence_policy (fun _ => true) false "m1"
      ⟨false, some .exitErr, "noise", true, true, false, true, true⟩ rfl rfl rfl).2.1 rfl
  · exact (persistence_policy (fun _ => true) false "m1"
      ⟨false, some .exitErr, "noise", true, true, true, false, true⟩ rfl rfl rfl).2.2.1 rfl rfl
  · exact (persistence_policy (fun _ => true) false "m1"
      ⟨false, some .exitErr, "noise", true, true, true, true, false⟩ rfl rfl rfl).2.2.2 rfl rfl rfl

/-- Claim C7 (code bug): when os.CreateTemp fails on an unmatched
failure, the Go code logs but does not stop: it calls Write on the nil
file handle, which returns os.ErrInvalid, and the logging call on that
error path evaluates f.Name() on the nil handle, a nil pointer
dereference that panics instead of safely looping again as the
specification requires. -/
theorem createTemp_nil_deref :
    (runStep (some (fun _ => false)) false "m1"
        ⟨false, some .exitErr, "boom", false, true, true, true, true⟩).outcome =
      .panicNilDeref := by
  exact rfl

/-- Claim C8 (confirmed): the cleanup loop issues destroy calls only for
listed instances whose type equals the target type, never for any other
instance; and when every destroy call succeeds it destroys exactly the
instances of the target type, in list order. -/
theorem cleanUp_only_matching_type :
    (∀ (typ : String) (destroy : String → Option String) (insts : List Instance)
        (d : Instance), d ∈ (cleanUpLoop typ destroy insts).2 → d ∈ insts ∧ d.type = typ) ∧
    (∀ (typ : String) (destroy : String → Option String) (insts : List Instance),
        (∀ n, destroy n = none) →
        (cleanUpLoop typ destroy insts).2 = insts.filter (fun i => i.type == typ)) := by
  constructor
  · intro typ destroy insts
    induction insts with
    | nil => intro d hd; simp [cleanUpLoop] at hd
    | cons inst rest ih =>
      intro d hd
      by_cases ht : inst.type = typ
      · cases hdst : destroy inst.name with
        | some e =>
          simp [cleanUpLoop, ht, hdst] at hd
          subst hd
          exact ⟨List.mem_cons_self _ _, ht⟩
        | none =>
          simp only [cleanUpLoop, ht, hdst, ne_eq, not_true_eq_false, if_false,
            List.mem_cons] at hd
          rcases hd with hd | hd
          · subst hd
            exact ⟨List.mem_cons_self _ _, ht⟩
          · obtain ⟨hmem, hty⟩ := ih d hd
            exact ⟨List.mem_cons_of_mem inst hmem, hty⟩
      · simp only [cleanUpLoop, ne_eq, ht, not_false_eq_true, if_true] at hd
        obtain ⟨hmem, hty⟩ := ih d hd
        exact ⟨List.mem_cons_of_mem inst hmem, hty⟩
  · intro typ destroy insts hok
    induction insts with
    | nil => simp [cleanUpLoop]
    | cons inst rest ih =>
      by_cases ht : inst.type = typ
      · simp [cleanUpLoop, ht, hok inst.name, List.filter_cons, ih]
      · simp [cleanUpLoop, ht, List.filter_cons, ih]

/-- Witness for C8: a concrete list holding both types; only the two
instances of the target type are destroyed. -/
theorem cleanUp_only_matching_type_witness :
    (cleanUpLoop "linux-amd64" (fun _ => none)
        [⟨"m1", "linux-amd64"⟩, ⟨"m2", "windows-386"⟩, ⟨"m3", "linux-amd64"⟩]).2 =
      List.filter (fun i => i.type == "linux-amd64")
        [⟨"m1", "linux-amd64"⟩, ⟨"m2", "windows-386"⟩, ⟨"m3", "linux-amd64"⟩] := by
  exact cleanUp_only_matching_type.2 "linux-amd64" (fun _ => none)
    [⟨"m1", "linux-amd64"⟩, ⟨"m2", "windows-386"⟩, ⟨"m3", "linux-amd64"⟩] (fun n => rfl)

/-- Claim C9 (confirmed): the process exits 0 exactly when run() returned
nil (clean completion, including after an interrupt) or errStop (a fully
handled matched failure); every other error exits 1, the single non-zero
code produced. -/
theorem mainExitCode_zero_iff :
    ∀ r : Option GoError, (mainExitCode r = 0 ↔ r = none ∨ r = some .stop) ∧
      (mainExitCode r = 0 ∨ mainExitCode r = 1) := by
  intro r
  unfold mainExitCode
  by_cases h : r ≠ none ∧ r ≠ some GoError.stop
  · rw [if_pos h]
    constructor
    · constructor
      · intro h10; omega
      · intro hr; rcases hr with hr | hr <;> exact absurd hr (by tauto)
    · right; rfl
  · rw [if_neg h]
    constructor
    · constructor
      · intro _
        by_cases h1 : r = none
        · exact Or.inl h1
        · right
          by_contra h2
          exact h ⟨h1, h2⟩
      · intro _; rfl
    · left; rfl

/-- Witness for C9: errStop exits 0. -/
theorem mainExitCode_zero_iff_witness : mainExitCode (some GoError.stop) = 0 := by
  exact (mainExitCode_zero_iff (some GoError.stop)).1.mpr (Or.inr rfl)

/-- Claim C10 (confirmed): with exactly one positional argument, the
type validating, and cleanup succeeding when requested, run() returns nil
if and only if the clean mode is start; with any other clean mode it
returns the expected a command error; and with one argument no worker
session is ever launched, whatever the clean mode and whatever the
validation and cleanup results. -/
theorem single_arg_behavior (clean : CleanMode) (ve ce : Option String)
    (hv : ve = none) (hc : clean = .cleanStart → ce = none) :
    (runArgCheck 1 clean ve ce = .ret none ↔ clean = .cleanStart) ∧
    (clean ≠ .cleanStart → runArgCheck 1 clean ve ce = .ret (some .expectedCommand)) ∧
    (∀ (c2 : CleanMode) (v2 c3 : Option String), runArgCheck 1 c2 v2 c3 ≠ .proceed) := by
  refine ⟨?_, ?_, ?_⟩
  · subst hv
    by_cases hclean : clean = CleanMode.cleanStart
    · rw [hc hclean]
      simp [runArgCheck, hclean]
    · simp [runArgCheck, hclean]
  · intro hclean
    subst hv
    simp [runArgCheck, hclean]
  · intro c2 v2 c3
    cases v2 with
    | some e => simp [runArgCheck]
    | none =>
      by_cases hclean : c2 = CleanMode.cleanStart
      · cases c3 with
        | some e => simp [runArgCheck, hclean]
        | none => simp [runArgCheck, hclean]
      · simp [runArgCheck, hclean]

/-- Witness for C10: a single argument with clean mode start and a
successful cleanup is a successful cleanup-only invocation. -/
theorem single_arg_behavior_witness :
    runArgCheck 1 CleanMode.cleanStart none none = ArgCheck.ret none := by
  exact (single_arg_behavior CleanMode.cleanStart none none rfl (fun _ => rfl)).1.mpr rfl

end Goswarm
